import Mathlib

/-!
Verification of the covid-chart dashboard (`src/project/3_covid-chart/src/app.ts`).

The TypeScript source is shallowly embedded below.  Conventions:

* API payloads are modelled by structures mirroring the response shapes the
  code reads (`CountryInfo` with `Cases` and `Date`, summary records with
  country name, slug and totals).  A `Date` string is represented by its
  parsed Unix timestamp (an `Int`), which is exactly what the code compares
  via `getUnixTimestamp`.
* `Array.prototype.sort(comparator)` is required by ECMAScript to be a
  stable sort consistent with the comparator; both call sites use a numeric
  comparator `key(b) - key(a)`, i.e. a stable descending sort by `key`.
  We realise that observable contract with the stable insertion sort
  `sortDescBy` below.  `sort` mutates the array in place, so embedded
  renderers return the post-call value of their argument array alongside
  the rendered items.
* `data[0].Cases` on an empty array is a TypeError in JavaScript (reading a
  field of `undefined`); the embedding returns `Option`, with `none` as the
  error branch, and the click handler propagates that abort.
* The async click handler is embedded as a function from the mutable page
  state, the click target and the fetch outcomes to the final state plus a
  trace of observable events (DOM clears, spinner changes, flag writes,
  fetch issuance/resolution, render steps).  Each `await fetchCountryInfo`
  is one `fetchIssued` event followed, when the promise resolves, by a
  `fetchResolved` event; a rejected fetch aborts the rest of the handler,
  as an uncaught rejection does in the source.
-/

namespace CovidChart

/-- One entry of a per-country per-status time series, as read by the code:
`Cases` (a cumulative count) and `Date` (modelled by its Unix timestamp). -/
structure CountryInfo where
  Cases : Nat
  Date : Int
deriving DecidableEq, Repr

/-- The country time-series endpoint returns a list of entries. -/
abbrev CountryInfoResponse := List CountryInfo

/-- One per-country record of the global summary, with the fields the code
reads: display name, slug, and the three cumulative totals. -/
structure Country where
  Country : String
  Slug : String
  TotalConfirmed : Nat
  TotalDeaths : Nat
  TotalRecovered : Nat
deriving DecidableEq, Repr

/-- The summary endpoint response: a report timestamp and per-country records. -/
structure CovidSummaryResponse where
  Date : Int
  Countries : List Country
deriving DecidableEq, Repr

/-- The `CovidStatus` enum from `covid.ts`: selects the time-series variant. -/
inductive CovidStatus where
  | confirmed
  | recovered
  | deaths
deriving DecidableEq, Repr

/-! ### Stable descending sort: the embedding of `arr.sort((a, b) => key(b) - key(a))`

ECMAScript `Array.prototype.sort` with comparator `key(b) - key(a)` produces
the stable descending-by-`key` reordering of the array.  `insertDescBy`
places `x` before the first element whose key is at most `key x`, so earlier
input elements precede later tied ones: the sort is stable. -/

/-- Insert `x` into a descending-sorted list, after all strictly greater keys
and before all keys less than or equal to `key x`. -/
def insertDescBy {α β : Type} [LinearOrder β] (key : α → β) (x : α) : List α → List α
  | [] => [x]
  | y :: ys => if key y ≤ key x then x :: y :: ys else y :: insertDescBy key x ys

/-- Stable descending sort by `key` (the behaviour of `sort((a, b) => key(b) - key(a))`). -/
def sortDescBy {α β : Type} [LinearOrder β] (key : α → β) : List α → List α
  | [] => []
  | x :: xs => insertDescBy key x (sortDescBy key xs)

theorem insertDescBy_perm {α β : Type} [LinearOrder β] (key : α → β) (x : α) (l : List α) :
    (insertDescBy key x l).Perm (x :: l) := by
  induction l with
  | nil => exact List.Perm.refl _
  | cons y ys ih =>
    rw [insertDescBy]
    split
    · exact List.Perm.refl _
    · exact List.Perm.trans (List.Perm.cons y ih) (List.Perm.swap x y ys)

theorem sortDescBy_perm {α β : Type} [LinearOrder β] (key : α → β) (l : List α) :
    (sortDescBy key l).Perm l := by
  induction l with
  | nil => exact List.Perm.refl _
  | cons x xs ih =>
    rw [sortDescBy]
    exact List.Perm.trans (insertDescBy_perm key x (sortDescBy key xs)) (List.Perm.cons x ih)

theorem mem_insertDescBy {α β : Type} [LinearOrder β] {key : α → β} {x a : α} {l : List α} :
    a ∈ insertDescBy key x l ↔ a = x ∨ a ∈ l := by
  rw [(insertDescBy_perm key x l).mem_iff, List.mem_cons]

theorem pairwise_insertDescBy {α β : Type} [LinearOrder β] {key : α → β} {x : α} {l : List α}
    (h : l.Pairwise (fun a b => key b ≤ key a)) :
    (insertDescBy key x l).Pairwise (fun a b => key b ≤ key a) := by
  induction l with
  | nil => simp [insertDescBy]
  | cons y ys ih =>
    rw [List.pairwise_cons] at h
    obtain ⟨hy, hys⟩ := h
    rw [insertDescBy]
    split
    · rename_i hle
      refine List.Pairwise.cons ?_ (List.Pairwise.cons hy hys)
      intro z hz
      rcases List.mem_cons.mp hz with rfl | hz
      · exact hle
      · exact le_trans (hy z hz) hle
    · rename_i hnle
      push_neg at hnle
      refine List.Pairwise.cons ?_ (ih hys)
      intro z hz
      rcases mem_insertDescBy.mp hz with rfl | hz
      · exact le_of_lt hnle
      · exact hy z hz

theorem pairwise_sortDescBy {α β : Type} [LinearOrder β] (key : α → β) (l : List α) :
    (sortDescBy key l).Pairwise (fun a b => key b ≤ key a) := by
  induction l with
  | nil => exact List.Pairwise.nil
  | cons x xs ih => exact pairwise_insertDescBy ih

theorem filter_insertDescBy {α β : Type} [LinearOrder β] (key : α → β) (c : β) (x : α)
    (l : List α) :
    (insertDescBy key x l).filter (fun a => decide (key a = c)) =
      if key x = c then x :: l.filter (fun a => decide (key a = c))
      else l.filter (fun a => decide (key a = c)) := by
  induction l with
  | nil =>
    by_cases hx : key x = c <;> simp [insertDescBy, hx]
  | cons y ys ih =>
    rw [insertDescBy]
    split
    · rename_i hle
      by_cases hx : key x = c <;> simp [List.filter_cons, hx]
    · rename_i hnle
      push_neg at hnle
      by_cases hx : key x = c
      · have hy : ¬ key y = c := by
          rw [← hx]
          exact ne_of_gt hnle
        simp [List.filter_cons, hx, hy, ih]
      · by_cases hy : key y = c <;> simp [List.filter_cons, hx, hy, ih]

theorem filter_sortDescBy {α β : Type} [LinearOrder β] (key : α → β) (c : β) (l : List α) :
    (sortDescBy key l).filter (fun a => decide (key a = c)) =
      l.filter (fun a => decide (key a = c)) := by
  induction l with
  | nil => rfl
  | cons x xs ih =>
    rw [sortDescBy, filter_insertDescBy]
    by_cases hx : key x = c <;> simp [List.filter_cons, hx, ih]

/-! ### Renderers (`setDeathsList`, `setRecoveredList`, totals, rank list, chart) -/

/-- One rendered detail-list `li`: a `span` with the cases count and a `p`
with the entry's date (displayed as `toLocaleDateString().slice(0, -1)`;
locale formatting is presentation, so the item carries the timestamp). -/
structure DetailItem where
  cases : Nat
  date : Int
deriving DecidableEq, Repr

/-- `setDeathsList`: sorts the response descending by date — `data.sort`
mutates the array in place, so the first component is the array's post-call
value — and appends one list item per sorted entry.  The second component is
the list of appended items, in append order. -/
def setDeathsList (data : CountryInfoResponse) : CountryInfoResponse × List DetailItem :=
  let sorted := sortDescBy (fun v => v.Date) data
  (sorted, sorted.map (fun v => { cases := v.Cases, date := v.Date }))

/-- `setRecoveredList`: identical shaping for the recovered list. -/
def setRecoveredList (data : CountryInfoResponse) : CountryInfoResponse × List DetailItem :=
  let sorted := sortDescBy (fun v => v.Date) data
  (sorted, sorted.map (fun v => { cases := v.Cases, date := v.Date }))

/-- `setTotalDeathsByCountry`: writes `data[0].Cases.toString()`.  On an empty
array `data[0]` is `undefined` and reading `.Cases` throws; `none` is that
error branch. -/
def setTotalDeathsByCountry (data : CountryInfoResponse) : Option String :=
  (data[0]?).map (fun e => toString e.Cases)

/-- `setTotalRecoveredByCountry`: writes `data[0].Cases.toString()`; `none`
is the out-of-bounds error branch, as for the deaths total. -/
def setTotalRecoveredByCountry (data : CountryInfoResponse) : Option String :=
  (data[0]?).map (fun e => toString e.Cases)

/-- One rendered rank-list `li`: `id` is the country slug, the `span` shows
the confirmed total and the `p` the country name. -/
structure RankItem where
  id : String
  confirmed : Nat
  country : String
deriving DecidableEq, Repr

/-- `setCountryRanksByConfirmedCases`: sorts `data.Countries` descending by
`TotalConfirmed` — `sort` mutates the array inside the response in place, so
the first component is the response's post-call value — and appends one rank
item per sorted record. -/
def setCountryRanksByConfirmedCases (data : CovidSummaryResponse) :
    CovidSummaryResponse × List RankItem :=
  let sorted := sortDescBy (fun v => v.TotalConfirmed) data.Countries
  ({ data with Countries := sorted },
   sorted.map (fun v => { id := v.Slug, confirmed := v.TotalConfirmed, country := v.Country }))

/-- `setChartData`: both the data points and the labels come from
`data.slice(-14)` — the last 14 entries, or all of them when fewer exist —
in input (chronological) order.  A label is the entry's date rendered as
month/day (`toLocaleDateString().slice(5, -1)`); the embedding carries the
timestamp. -/
def setChartData (data : CountryInfoResponse) : List Nat × List Int :=
  ((data.drop (data.length - 14)).map (fun v => v.Cases),
   (data.drop (data.length - 14)).map (fun v => v.Date))

/-! ### The click handler -/

/-- What was clicked inside the rank list: a rank `li` (whose `id` is the
country slug), its child `span` or `p` (whose parent `li` carries the slug),
or any other node.  In the last case neither `if` in the source matches and
`selectedId` stays `undefined`. -/
inductive ClickTarget where
  | li (id : String)
  | span (parentId : String)
  | p (parentId : String)
  | other
deriving DecidableEq, Repr

/-- The `selectedId` computed by the first two `if`s of `handleListClick`;
`none` is JavaScript's `undefined`. -/
def targetCountryId : ClickTarget → Option String
  | ClickTarget.li id => some id
  | ClickTarget.span parentId => some parentId
  | ClickTarget.p parentId => some parentId
  | ClickTarget.other => none

/-- The page state the handler touches: the loading flag, the children of the
two detail lists (rendered items and whether the spinner `div` is attached),
the two per-country totals, and the chart surface. -/
structure AppState where
  isDeathLoading : Bool
  deathsItems : List DetailItem
  recoveredItems : List DetailItem
  deathSpinnerShown : Bool
  recoveredSpinnerShown : Bool
  deathsTotalText : String
  recoveredTotalText : String
  chart : Option (List Nat × List Int)
deriving DecidableEq, Repr

/-- Observable events of one handler run, in program order. -/
inductive Event where
  | clearedDeathList
  | clearedRecoveredList
  | startedLoadingAnim
  | loadingFlagSet (value : Bool)
  | fetchIssued (countryCode : Option String) (status : CovidStatus)
  | fetchResolved (status : CovidStatus)
  | endedLoadingAnim
  | renderedDeathsList
  | deathsTotalSet
  | renderedRecoveredList
  | recoveredTotalSet
  | chartRendered
deriving DecidableEq, Repr

/-- `handleListClick`, embedded over the fetch outcomes `resp` (`none` is a
rejected `fetchCountryInfo` promise).  The source awaits the Deaths fetch,
then the Recovered fetch, then the Confirmed fetch; a rejection aborts the
rest of the handler (uncaught), as does the TypeError from reading `[0]` of
an empty response inside the totals renderers. -/
def handleListClick (st : AppState) (target : ClickTarget)
    (resp : CovidStatus → Option CountryInfoResponse) : AppState × List Event :=
  let selectedId := targetCountryId target
  if st.isDeathLoading then
    (st, [])
  else
    -- clearDeathList / clearRecoveredList: innerHTML = null removes all children
    let st1 : AppState := { st with
      deathsItems := [], deathSpinnerShown := false,
      recoveredItems := [], recoveredSpinnerShown := false }
    -- startLoadingAnimation, then isDeathLoading = true
    let st2 : AppState := { st1 with
      deathSpinnerShown := true, recoveredSpinnerShown := true, isDeathLoading := true }
    let tr0 : List Event := [Event.clearedDeathList, Event.clearedRecoveredList,
      Event.startedLoadingAnim, Event.loadingFlagSet true,
      Event.fetchIssued selectedId CovidStatus.deaths]
    match resp CovidStatus.deaths with
    | none => (st2, tr0)
    | some deathResponse =>
      let tr1 := tr0 ++ [Event.fetchResolved CovidStatus.deaths,
        Event.fetchIssued selectedId CovidStatus.recovered]
      match resp CovidStatus.recovered with
      | none => (st2, tr1)
      | some recoveredResponse =>
        let tr2 := tr1 ++ [Event.fetchResolved CovidStatus.recovered,
          Event.fetchIssued selectedId CovidStatus.confirmed]
        match resp CovidStatus.confirmed with
        | none => (st2, tr2)
        | some confirmedResponse =>
          let tr3 := tr2 ++ [Event.fetchResolved CovidStatus.confirmed,
            Event.endedLoadingAnim]
          -- endLoadingAnimation removes both spinners
          let st3 : AppState := { st2 with
            deathSpinnerShown := false, recoveredSpinnerShown := false }
          -- setDeathsList sorts deathResponse in place and appends its items
          let sortedDeaths := (setDeathsList deathResponse).1
          let st4 : AppState := { st3 with
            deathsItems := st3.deathsItems ++ (setDeathsList deathResponse).2 }
          let tr4 := tr3 ++ [Event.renderedDeathsList]
          -- setTotalDeathsByCountry reads index 0 of the now-sorted array
          match setTotalDeathsByCountry sortedDeaths with
          | none => (st4, tr4)
          | some deathsText =>
            let st5 : AppState := { st4 with deathsTotalText := deathsText }
            let tr5 := tr4 ++ [Event.deathsTotalSet]
            let sortedRecovered := (setRecoveredList recoveredResponse).1
            let st6 : AppState := { st5 with
              recoveredItems := st5.recoveredItems ++ (setRecoveredList recoveredResponse).2 }
            let tr6 := tr5 ++ [Event.renderedRecoveredList]
            match setTotalRecoveredByCountry sortedRecovered with
            | none => (st6, tr6)
            | some recoveredText =>
              let st7 : AppState := { st6 with recoveredTotalText := recoveredText }
              let tr7 := tr6 ++ [Event.recoveredTotalSet]
              let st8 : AppState := { st7 with
                chart := some (setChartData confirmedResponse) }
              let tr8 := tr7 ++ [Event.chartRendered]
              ({ st8 with isDeathLoading := false },
               tr8 ++ [Event.loadingFlagSet false])

/-- Is this event a render step (detail lists, totals, chart)? -/
def isRenderEvent : Event → Bool
  | Event.renderedDeathsList => true
  | Event.deathsTotalSet => true
  | Event.renderedRecoveredList => true
  | Event.recoveredTotalSet => true
  | Event.chartRendered => true
  | _ => false

/-- Is this event the issuance of a `fetchCountryInfo` request? -/
def isFetchIssued : Event → Bool
  | Event.fetchIssued _ _ => true
  | _ => false

/-- Is this event the resolution of a `fetchCountryInfo` request? -/
def isFetchResolved : Event → Bool
  | Event.fetchResolved _ => true
  | _ => false

/-- "Fire in parallel": every request issuance in the trace happens before
the first request resolution, i.e. after the first `fetchResolved` no
further `fetchIssued` occurs. -/
def allIssuedBeforeFirstResolved (tr : List Event) : Prop :=
  ((tr.dropWhile (fun e => ! isFetchResolved e)).all (fun e => ! isFetchIssued e)) = true

instance (tr : List Event) : Decidable (allIssuedBeforeFirstResolved tr) := by
  rw [allIssuedBeforeFirstResolved]
  infer_instance

/-! ### Helper lemmas -/

theorem sortDescBy_ne_nil {α β : Type} [LinearOrder β] (key : α → β) {l : List α}
    (h : l ≠ []) : sortDescBy key l ≠ [] := by
  intro hs
  apply h
  have hp := sortDescBy_perm key l
  rw [hs] at hp
  exact hp.symm.eq_nil

theorem setTotalDeathsByCountry_isSome (dd : CountryInfoResponse) (h : dd ≠ []) :
    ∃ s, setTotalDeathsByCountry (setDeathsList dd).1 = some s := by
  have hne := sortDescBy_ne_nil (fun v : CountryInfo => v.Date) h
  cases hs : sortDescBy (fun v : CountryInfo => v.Date) dd with
  | nil => exact absurd hs hne
  | cons e es =>
    refine ⟨toString e.Cases, ?_⟩
    simp [setDeathsList, setTotalDeathsByCountry, hs]

theorem setTotalRecoveredByCountry_isSome (rr : CountryInfoResponse) (h : rr ≠ []) :
    ∃ s, setTotalRecoveredByCountry (setRecoveredList rr).1 = some s := by
  have hne := sortDescBy_ne_nil (fun v : CountryInfo => v.Date) h
  cases hs : sortDescBy (fun v : CountryInfo => v.Date) rr with
  | nil => exact absurd hs hne
  | cons e es =>
    refine ⟨toString e.Cases, ?_⟩
    simp [setRecoveredList, setTotalRecoveredByCountry, hs]

/-! ### Concrete page states and fetch outcomes used by witnesses -/

/-- A fresh page in the `Idle` state (`isDeathLoading = false`, empty detail
lists, no spinners). -/
def sampleState : AppState :=
  { isDeathLoading := false, deathsItems := [], recoveredItems := [],
    deathSpinnerShown := false, recoveredSpinnerShown := false,
    deathsTotalText := "", recoveredTotalText := "", chart := none }

/-- Fetch outcomes where every status resolves with a one-entry series. -/
def sampleResp : CovidStatus → Option CountryInfoResponse :=
  fun _ => some [{ Cases := 5, Date := 1 }]

/-! ### C4 -/

/-- C4: on an empty entries sequence both per-country counter writers reach
the out-of-bounds branch of the embedding (reading element 0 of an empty
list), i.e. their result is `none`. -/
theorem setCountryCounter_empty_outOfBounds :
    setTotalDeathsByCountry [] = none ∧ setTotalRecoveredByCountry [] = none :=
  ⟨rfl, rfl⟩

/-! ### C5 -/

/-- A concrete summary whose countries are not already sorted by confirmed
count, so the in-place sort reorders them. -/
def rankSample : CovidSummaryResponse :=
  { Date := 0,
    Countries := [
      { Country := "Albania", Slug := "albania",
        TotalConfirmed := 1, TotalDeaths := 0, TotalRecovered := 0 },
      { Country := "Brazil", Slug := "brazil",
        TotalConfirmed := 2, TotalDeaths := 0, TotalRecovered := 0 }] }

/-- C5 counterexample: rendering the rank list does not leave the summary
records unchanged — `data.Countries.sort` mutates the response in place, so
after the call the response differs from its pre-call value. -/
theorem setCountryRanks_mutates_counterexample :
    (setCountryRanksByConfirmedCases rankSample).1 ≠ rankSample := by
  decide

/-- C5 (amended): rendering the rank list reorders `data.Countries` in place
into the stable descending-by-confirmed order; the reordered list is a
permutation of the input records (no record is added, dropped or edited) and
the rest of the response (its report date) is unchanged. -/
theorem setCountryRanks_inPlaceStableSort (data : CovidSummaryResponse) :
    (setCountryRanksByConfirmedCases data).1.Countries =
      sortDescBy (fun v => v.TotalConfirmed) data.Countries ∧
    ((setCountryRanksByConfirmedCases data).1.Countries).Perm data.Countries ∧
    (setCountryRanksByConfirmedCases data).1.Date = data.Date :=
  ⟨rfl, sortDescBy_perm _ _, rfl⟩

/-! ### C9 -/

/-- C9: the chart is fed exactly the last 14 entries of the confirmed series
in input (chronological) order — all of them when fewer than 14 exist — both
as data points and as labels, with no error on short input. -/
theorem setChartData_lastFourteen (data : CountryInfoResponse) :
    ∃ pre suf : CountryInfoResponse, data = pre ++ suf ∧
      suf.length = min data.length 14 ∧
      (setChartData data).1 = suf.map (fun v => v.Cases) ∧
      (setChartData data).2 = suf.map (fun v => v.Date) := by
  refine ⟨data.take (data.length - 14), data.drop (data.length - 14), ?_, ?_, rfl, rfl⟩
  · exact (List.take_append_drop _ _).symm
  · rw [List.length_drop]
    omega

/-! ### C1 -/

/-- C1 counterexample: the three per-country fetches are not issued in
parallel.  On a fresh `Idle` page, a click on the rank item for
"thailand" with every fetch resolving produces a trace in which a request
is issued after another request has already resolved (the source awaits
the Deaths fetch before starting the Recovered one), so it is false that
all three requests start before any of them is awaited. -/
theorem fetches_not_parallel_counterexample :
    ¬ allIssuedBeforeFirstResolved
        (handleListClick sampleState (ClickTarget.li "thailand") sampleResp).2 := by
  decide

/-- C1 (amended): the three per-country fetches are issued sequentially —
each request starts only after the previous one has resolved — and rendering
begins only after all three have resolved: on any `Idle` state, for any
click target and any fetch outcomes where all three fetches resolve (with
nonempty Deaths and Recovered series, so no renderer aborts), the handler
trace is exactly clear/clear/spinner/flag, then issue-resolve for Deaths,
issue-resolve for Recovered, issue-resolve for Confirmed, and only then the
render steps. -/
theorem handleListClick_sequentialFetchTrace (st : AppState) (target : ClickTarget)
    (resp : CovidStatus → Option CountryInfoResponse) (dd rr cc : CountryInfoResponse)
    (h0 : st.isDeathLoading = false)
    (hd : resp CovidStatus.deaths = some dd)
    (hr : resp CovidStatus.recovered = some rr)
    (hc : resp CovidStatus.confirmed = some cc)
    (hdne : dd ≠ []) (hrne : rr ≠ []) :
    (handleListClick st target resp).2 =
      [Event.clearedDeathList, Event.clearedRecoveredList, Event.startedLoadingAnim,
       Event.loadingFlagSet true,
       Event.fetchIssued (targetCountryId target) CovidStatus.deaths,
       Event.fetchResolved CovidStatus.deaths,
       Event.fetchIssued (targetCountryId target) CovidStatus.recovered,
       Event.fetchResolved CovidStatus.recovered,
       Event.fetchIssued (targetCountryId target) CovidStatus.confirmed,
       Event.fetchResolved CovidStatus.confirmed,
       Event.endedLoadingAnim, Event.renderedDeathsList, Event.deathsTotalSet,
       Event.renderedRecoveredList, Event.recoveredTotalSet, Event.chartRendered,
       Event.loadingFlagSet false] := by
  obtain ⟨sd, hsd⟩ := setTotalDeathsByCountry_isSome dd hdne
  obtain ⟨sr, hsr⟩ := setTotalRecoveredByCountry_isSome rr hrne
  simp [handleListClick, h0, hd, hr, hc, hsd, hsr]

/-- C1 witness: the amended sequential-trace theorem instantiated on a fresh
`Idle` page, a click on the "thailand" rank item, and fetches that all
resolve with a one-entry series. -/
theorem handleListClick_sequentialFetchTrace_witness :
    (handleListClick sampleState (ClickTarget.li "thailand") sampleResp).2 =
      [Event.clearedDeathList, Event.clearedRecoveredList, Event.startedLoadingAnim,
       Event.loadingFlagSet true,
       Event.fetchIssued (some "thailand") CovidStatus.deaths,
       Event.fetchResolved CovidStatus.deaths,
       Event.fetchIssued (some "thailand") CovidStatus.recovered,
       Event.fetchResolved CovidStatus.recovered,
       Event.fetchIssued (some "thailand") CovidStatus.confirmed,
       Event.fetchResolved CovidStatus.confirmed,
       Event.endedLoadingAnim, Event.renderedDeathsList, Event.deathsTotalSet,
       Event.renderedRecoveredList, Event.recoveredTotalSet, Event.chartRendered,
       Event.loadingFlagSet false] :=
  handleListClick_sequentialFetchTrace sampleState (ClickTarget.li "thailand") sampleResp
    [{ Cases := 5, Date := 1 }] [{ Cases := 5, Date := 1 }] [{ Cases := 5, Date := 1 }]
    rfl rfl rfl rfl (by decide) (by decide)

/-! ### C2 -/

/-- C2: a click delivered while the loading flag is set is ignored
completely — the handler leaves the page state unchanged and its trace is
empty (no network call issued, nothing cleared, nothing rendered, no flag
write). -/
theorem handleListClick_ignored_while_loading (st : AppState) (target : ClickTarget)
    (resp : CovidStatus → Option CountryInfoResponse)
    (h : st.isDeathLoading = true) :
    handleListClick st target resp = (st, []) := by
  simp [handleListClick, h]

/-- A page whose loading flag is set (a prior click's fetches outstanding):
detail lists cleared, both spinners attached. -/
def loadingState : AppState :=
  { isDeathLoading := true, deathsItems := [], recoveredItems := [],
    deathSpinnerShown := true, recoveredSpinnerShown := true,
    deathsTotalText := "", recoveredTotalText := "", chart := none }

/-- C2 witness: the guard theorem instantiated on a loading page and a second
click on the "france" rank item whose fetches would all resolve. -/
theorem handleListClick_ignored_while_loading_witness :
    handleListClick loadingState (ClickTarget.li "france")
      (fun _ => some [{ Cases := 2, Date := 7 }]) = (loadingState, []) :=
  handleListClick_ignored_while_loading loadingState (ClickTarget.li "france")
    (fun _ => some [{ Cases := 2, Date := 7 }]) rfl

/-! ### C3 -/

/-- C3: if any of the three per-country fetches fails, none of that click's
results is rendered (the trace has no render event), the loading animation is
never ended and both spinners remain attached, the loading flag is left set,
the totals and chart keep their pre-click values while the detail lists stay
cleared, and every subsequent click is ignored (unchanged state, empty
trace). -/
theorem handleListClick_failureLocksLoading (st : AppState) (target : ClickTarget)
    (resp : CovidStatus → Option CountryInfoResponse)
    (h0 : st.isDeathLoading = false)
    (hfail : resp CovidStatus.deaths = none ∨ resp CovidStatus.recovered = none ∨
      resp CovidStatus.confirmed = none) :
    (handleListClick st target resp).1.isDeathLoading = true ∧
    (handleListClick st target resp).1.deathSpinnerShown = true ∧
    (handleListClick st target resp).1.recoveredSpinnerShown = true ∧
    (handleListClick st target resp).1.deathsItems = [] ∧
    (handleListClick st target resp).1.recoveredItems = [] ∧
    (handleListClick st target resp).1.deathsTotalText = st.deathsTotalText ∧
    (handleListClick st target resp).1.recoveredTotalText = st.recoveredTotalText ∧
    (handleListClick st target resp).1.chart = st.chart ∧
    ((handleListClick st target resp).2.all (fun e => ! isRenderEvent e)) = true ∧
    Event.endedLoadingAnim ∉ (handleListClick st target resp).2 ∧
    ∀ (target2 : ClickTarget) (resp2 : CovidStatus → Option CountryInfoResponse),
      handleListClick (handleListClick st target resp).1 target2 resp2 =
        ((handleListClick st target resp).1, []) := by
  rcases hfail with h | h | h
  · simp [handleListClick, h0, h, isRenderEvent]
  · cases hd : resp CovidStatus.deaths with
    | none => simp [handleListClick, h0, hd, isRenderEvent]
    | some dd => simp [handleListClick, h0, hd, h, isRenderEvent]
  · cases hd : resp CovidStatus.deaths with
    | none => simp [handleListClick, h0, hd, isRenderEvent]
    | some dd =>
      cases hr : resp CovidStatus.recovered with
      | none => simp [handleListClick, h0, hd, hr, isRenderEvent]
      | some rr => simp [handleListClick, h0, hd, hr, h, isRenderEvent]

/-- Fetch outcomes where the Recovered fetch fails and the others resolve. -/
def failingResp : CovidStatus → Option CountryInfoResponse
  | CovidStatus.deaths => some [{ Cases := 3, Date := 1 }]
  | CovidStatus.recovered => none
  | CovidStatus.confirmed => some [{ Cases := 4, Date := 1 }]

/-- C3 witness: the failure theorem instantiated on a fresh `Idle` page, a
click on a rank item's paragraph for "spain", and a failing Recovered fetch:
the loading flag is left set. -/
theorem handleListClick_failureLocksLoading_witness :
    (handleListClick sampleState (ClickTarget.p "spain") failingResp).1.isDeathLoading
      = true :=
  (handleListClick_failureLocksLoading sampleState (ClickTarget.p "spain") failingResp
    rfl (Or.inr (Or.inl rfl))).1

/-! ### C6 -/

/-- C6: the rank-list items are in non-increasing order of confirmed count,
and the sort is stable — for every confirmed count, the items carrying that
count appear exactly as the records carrying it appear in the input. -/
theorem rankList_sorted_stable (data : CovidSummaryResponse) :
    ((setCountryRanksByConfirmedCases data).2).Pairwise
      (fun a b => b.confirmed ≤ a.confirmed) ∧
    ∀ n : Nat,
      ((setCountryRanksByConfirmedCases data).2).filter
          (fun it => decide (it.confirmed = n)) =
        (data.Countries.map
            (fun v => RankItem.mk v.Slug v.TotalConfirmed v.Country)).filter
          (fun it => decide (it.confirmed = n)) := by
  constructor
  · have hp := pairwise_sortDescBy (fun v : Country => v.TotalConfirmed) data.Countries
    exact List.Pairwise.map _ (fun a b h => h) hp
  · intro n
    show (List.map _
        (sortDescBy (fun v : Country => v.TotalConfirmed) data.Countries)).filter _ = _
    rw [List.filter_map, List.filter_map]
    exact congrArg (List.map _)
      (filter_sortDescBy (fun v : Country => v.TotalConfirmed) n data.Countries)

/-! ### C7 -/

/-- C7: the deaths and recovered detail-list items are in non-increasing
order of entry date, and the sort is stable — for every date, the items
carrying that date appear exactly as the entries carrying it appear in the
input. -/
theorem detailLists_sorted_stable (data : CountryInfoResponse) :
    ((setDeathsList data).2).Pairwise (fun a b => b.date ≤ a.date) ∧
    ((setRecoveredList data).2).Pairwise (fun a b => b.date ≤ a.date) ∧
    ∀ t : Int,
      (((setDeathsList data).2).filter (fun it => decide (it.date = t)) =
        (data.map (fun v => ({ cases := v.Cases, date := v.Date } : DetailItem))).filter
          (fun it => decide (it.date = t))) ∧
      (((setRecoveredList data).2).filter (fun it => decide (it.date = t)) =
        (data.map (fun v => ({ cases := v.Cases, date := v.Date } : DetailItem))).filter
          (fun it => decide (it.date = t))) := by
  have hp := pairwise_sortDescBy (fun v : CountryInfo => v.Date) data
  refine ⟨List.Pairwise.map _ (fun a b h => h) hp,
    List.Pairwise.map _ (fun a b h => h) hp, ?_⟩
  intro t
  constructor
  · show (List.map _ (sortDescBy (fun v : CountryInfo => v.Date) data)).filter _ = _
    rw [List.filter_map, List.filter_map]
    exact congrArg (List.map _)
      (filter_sortDescBy (fun v : CountryInfo => v.Date) t data)
  · show (List.map _ (sortDescBy (fun v : CountryInfo => v.Date) data)).filter _ = _
    rw [List.filter_map, List.filter_map]
    exact congrArg (List.map _)
      (filter_sortDescBy (fun v : CountryInfo => v.Date) t data)

/-! ### C8 -/

/-- C8: after `setDeathsList` has sorted the response in place, the deaths
total written by `setTotalDeathsByCountry` is the count of an entry of the
response whose date is most recent (no entry has a later date), whatever the
input order. -/
theorem countryDeathTotal_mostRecent (data : CountryInfoResponse) (h : data ≠ []) :
    ∃ e ∈ data,
      setTotalDeathsByCountry (setDeathsList data).1 = some (toString e.Cases) ∧
      ∀ x ∈ data, x.Date ≤ e.Date := by
  have hne := sortDescBy_ne_nil (fun v : CountryInfo => v.Date) h
  cases hs : sortDescBy (fun v : CountryInfo => v.Date) data with
  | nil => exact absurd hs hne
  | cons e es =>
    have hperm := sortDescBy_perm (fun v : CountryInfo => v.Date) data
    rw [hs] at hperm
    have hmem : e ∈ data := hperm.mem_iff.mp (List.mem_cons_self e es)
    refine ⟨e, hmem, ?_, ?_⟩
    · simp [setDeathsList, setTotalDeathsByCountry, hs]
    · intro x hx
      have hx2 : x ∈ e :: es := hperm.mem_iff.mpr hx
      have hpw := pairwise_sortDescBy (fun v : CountryInfo => v.Date) data
      rw [hs, List.pairwise_cons] at hpw
      rcases List.mem_cons.mp hx2 with rfl | hx3
      · exact le_refl _
      · exact hpw.1 x hx3

/-- C8 witness: the most-recent-entry theorem instantiated on the spec's
example entries (counts 5 and 9, the 9 on the later date), together with the
concrete evaluations showing both input orders yield "9". -/
theorem countryDeathTotal_mostRecent_witness :
    (∃ e ∈ ([{ Cases := 5, Date := 20210101 }, { Cases := 9, Date := 20210102 }] :
        CountryInfoResponse),
      setTotalDeathsByCountry
          (setDeathsList [{ Cases := 5, Date := 20210101 },
            { Cases := 9, Date := 20210102 }]).1 = some (toString e.Cases) ∧
      ∀ x ∈ ([{ Cases := 5, Date := 20210101 }, { Cases := 9, Date := 20210102 }] :
          CountryInfoResponse), x.Date ≤ e.Date) ∧
    setTotalDeathsByCountry
        (setDeathsList [{ Cases := 5, Date := 20210101 },
          { Cases := 9, Date := 20210102 }]).1 = some "9" ∧
    setTotalDeathsByCountry
        (setDeathsList [{ Cases := 9, Date := 20210102 },
          { Cases := 5, Date := 20210101 }]).1 = some "9" :=
  ⟨countryDeathTotal_mostRecent
      [{ Cases := 5, Date := 20210101 }, { Cases := 9, Date := 20210102 }] (by decide),
    by decide, by decide⟩

/-! ### C10 -/

/-- C10: while `Idle`, a click whose target is neither a list item nor a span
nor a paragraph is not rejected: the country key stays undefined (`none`),
the handler clears both detail lists, attaches the spinners, sets the loading
flag, and issues all three fetches parametrized by the undefined key. -/
theorem handleListClick_unmatchedTarget (st : AppState)
    (resp : CovidStatus → Option CountryInfoResponse) (dd rr cc : CountryInfoResponse)
    (h0 : st.isDeathLoading = false)
    (hd : resp CovidStatus.deaths = some dd)
    (hr : resp CovidStatus.recovered = some rr)
    (hc : resp CovidStatus.confirmed = some cc) :
    targetCountryId ClickTarget.other = none ∧
    (handleListClick st ClickTarget.other resp).2.take 5 =
      [Event.clearedDeathList, Event.clearedRecoveredList, Event.startedLoadingAnim,
       Event.loadingFlagSet true, Event.fetchIssued none CovidStatus.deaths] ∧
    (handleListClick st ClickTarget.other resp).2.filter isFetchIssued =
      [Event.fetchIssued none CovidStatus.deaths,
       Event.fetchIssued none CovidStatus.recovered,
       Event.fetchIssued none CovidStatus.confirmed] := by
  refine ⟨rfl, ?_⟩
  cases hsd : setTotalDeathsByCountry (setDeathsList dd).1 with
  | none =>
    constructor <;>
      simp [handleListClick, h0, hd, hr, hc, hsd, targetCountryId, isFetchIssued]
  | some sd =>
    cases hsr : setTotalRecoveredByCountry (setRecoveredList rr).1 with
    | none =>
      constructor <;>
        simp [handleListClick, h0, hd, hr, hc, hsd, hsr, targetCountryId, isFetchIssued]
    | some sr =>
      constructor <;>
        simp [handleListClick, h0, hd, hr, hc, hsd, hsr, targetCountryId, isFetchIssued]

/-- C10 witness: the unmatched-target theorem instantiated on a fresh `Idle`
page and fetches that all resolve with a one-entry series. -/
theorem handleListClick_unmatchedTarget_witness :
    targetCountryId ClickTarget.other = none ∧
    (handleListClick sampleState ClickTarget.other sampleResp).2.take 5 =
      [Event.clearedDeathList, Event.clearedRecoveredList, Event.startedLoadingAnim,
       Event.loadingFlagSet true, Event.fetchIssued none CovidStatus.deaths] ∧
    (handleListClick sampleState ClickTarget.other sampleResp).2.filter isFetchIssued =
      [Event.fetchIssued none CovidStatus.deaths,
       Event.fetchIssued none CovidStatus.recovered,
       Event.fetchIssued none CovidStatus.confirmed] :=
  handleListClick_unmatchedTarget sampleState sampleResp
    [{ Cases := 5, Date := 1 }] [{ Cases := 5, Date := 1 }] [{ Cases := 5, Date := 1 }]
    rfl rfl rfl rfl

end CovidChart
